import Mathlib

/-!
# Verification of `audit_framework.py`

A shallow embedding of the algorithmic-nudge audit script and proofs of its
specified properties.  The script is a three-stage pipeline over one in-memory
table:

  1. `simulate_data`               — builds a 1000-row synthetic A/B table;
  2. `calculate_autonomy_deficit`  — appends two weighted score columns;
  3. `generate_visualization`      — aggregates per-group means into a
     two-row trade-off table for the plotting surface.

Modelling conventions:

* Real-valued data is modelled over `ℚ` (the script's arithmetic is plain
  elementwise `+ - * /` on floats; we use exact rationals).
* The pandas `DataFrame` is a `Table`: an explicit list of column names
  (`cols`, giving pandas' `df.columns`, so that `df[c]` on an absent column
  can fail like a `KeyError`) together with row records.  A `Row` carries a
  field for every column the pipeline ever creates; fields whose column name
  is not in `cols` are junk and never read by the modelled code paths.
* Unseeded randomness becomes explicit input streams indexed by row number:
  `group i` is the `np.random.choice(['A','B'])` draw for row `i` (as
  `true ↔ 'B'`), `goal i` the base `Platform_Goal_Achieved` draw,
  `goalB i` the fresh group-B resample draw used when row `i` is in group B,
  `compr i` the `np.random.normal(7, 1.5)` draw, and `optout i`, `urgency i`
  the `np.random.randint(1, 10)` draws (so integers; the range [1,9] is a
  property of the generator, carried as a hypothesis where a claim needs it).
* Fallible steps (`KeyError` on a missing column, `IndexError` from
  `.iloc[0]` on an empty group selection) return `Except String`.
* `.clip(lo, hi)` is `clip`; `.round(1)` is decimal rounding half-to-even
  (numpy's rounding mode), `round1`.
-/

set_option maxRecDepth 10000

namespace AuditFramework

/-- pandas `Series.clip(lo, hi)` applied to one value: `max lo (min x hi)`. -/
def clip (lo hi x : ℚ) : ℚ := max lo (min x hi)

/-- Round to the nearest integer, ties to even (numpy's rounding mode). -/
def roundHalfEven (x : ℚ) : ℤ :=
  if x - (⌊x⌋ : ℚ) < 1/2 then ⌊x⌋
  else if 1/2 < x - (⌊x⌋ : ℚ) then ⌊x⌋ + 1
  else if ⌊x⌋ % 2 = 0 then ⌊x⌋ else ⌊x⌋ + 1

/-- numpy `.round(1)`: round to one decimal place, ties to even. -/
def round1 (x : ℚ) : ℚ := (roundHalfEven (x * 10) : ℚ) / 10

/-- One row of the audit table.  The last two fields model the columns the
scorer appends; they are junk (and their names absent from `Table.cols`)
until `calculate_autonomy_deficit` runs. -/
structure Row where
  userID : ℤ
  test_Group : String
  platform_Goal_Achieved : ℚ
  user_Comprehension_Score : ℚ
  optOut_Difficulty_Score : ℚ
  urgency_Messaging_Score : ℚ
  nad_Score : ℚ := 0
  nad_Score_Normalized : ℚ := 0
deriving Repr, DecidableEq

/-- A pandas `DataFrame`: the list of column names present (`df.columns`)
plus the row data. -/
structure Table where
  cols : List String
  rows : List Row
deriving Repr, DecidableEq

/-- Assigning `df[c] = ...`: the column name is appended to `df.columns`
if not already present. -/
def addCol (cs : List String) (c : String) : List String :=
  if c ∈ cs then cs else cs ++ [c]

/-- Fixed constant `n_users = 1000` in `simulate_data`. -/
def n_users : ℕ := 1000

/-- Row `i` of the simulated table: the base draws, then the group-B bias
injection (lines 34–37 of the source), then the whole-column cleanup
(lines 40–41), all of which act row-wise. -/
def simRow (group goal goalB : ℕ → Bool) (compr : ℕ → ℚ)
    (optout urgency : ℕ → ℤ) (i : ℕ) : Row :=
  -- base columns (source lines 20–30)
  let base : Row :=
    { userID := 1000 + (i : ℤ)
      test_Group := if group i then "B" else "A"
      platform_Goal_Achieved := if goal i then 1 else 0
      user_Comprehension_Score := compr i
      optOut_Difficulty_Score := (optout i : ℚ)
      urgency_Messaging_Score := (urgency i : ℚ) }
  -- bias injection on the `Test_Group == 'B'` mask (source lines 34–37)
  let biased : Row :=
    if group i then
      { base with
        platform_Goal_Achieved := if goalB i then 1 else 0
        user_Comprehension_Score := base.user_Comprehension_Score - 1.0
        urgency_Messaging_Score := clip 1 8 base.urgency_Messaging_Score + 2.0 }
    else base
  -- whole-column cleanup, both groups (source lines 40–41)
  { biased with
    user_Comprehension_Score := round1 (clip 1 10 biased.user_Comprehension_Score)
    urgency_Messaging_Score := clip 1 10 biased.urgency_Messaging_Score }

/-- Column names of the observation table built by `pd.DataFrame({...})`
(source lines 20–30). -/
def obsCols : List String :=
  ["UserID", "Test_Group", "Platform_Goal_Achieved", "User_Comprehension_Score",
   "OptOut_Difficulty_Score", "Urgency_Messaging_Score"]

/-- Source `simulate_data()`: a 1000-row table with the six observation
columns. -/
def simulate_data (group goal goalB : ℕ → Bool) (compr : ℕ → ℚ)
    (optout urgency : ℕ → ℤ) : Table :=
  { cols := obsCols
    rows := (List.range n_users).map (simRow group goal goalB compr optout urgency) }

/-- Elementwise effect of the scorer's two column assignments (source lines
58–65) on one row: `NAD_Score = OptOut * 0.4 + Urgency * 0.5` and
`NAD_Score_Normalized = NAD_Score / max_possible_score` with
`max_possible_score = 10*0.4 + 10*0.5`. -/
def scoreRow (r : Row) : Row :=
  let nad : ℚ := r.optOut_Difficulty_Score * 0.4 + r.urgency_Messaging_Score * 0.5
  let max_possible_score : ℚ := 10 * 0.4 + 10 * 0.5
  { r with nad_Score := nad
           nad_Score_Normalized := nad / max_possible_score }

/-- Source `calculate_autonomy_deficit(df)`: reads the two feature columns
(`KeyError` if a name is absent, the first access failing first), writes
the two derived columns via `scoreRow`, and returns the mutated table. -/
def calculate_autonomy_deficit (df : Table) : Except String Table :=
  if "OptOut_Difficulty_Score" ∈ df.cols then
    if "Urgency_Messaging_Score" ∈ df.cols then
      .ok { cols := addCol (addCol df.cols "NAD_Score") "NAD_Score_Normalized"
            rows := df.rows.map scoreRow }
    else .error "KeyError: Urgency_Messaging_Score"
  else .error "KeyError: OptOut_Difficulty_Score"

/-- The rows of `df` in group `g` (`df[df['Test_Group'] == g]`). -/
def filterGroup (df : Table) (g : String) : List Row :=
  df.rows.filter (fun r => r.test_Group = g)

/-- Lookup of `Goal_Rate` for group `g` in `group_metrics` followed by
`.iloc[0]`: `none` models the `IndexError` when the group has no rows
(so `groupby` produced no such row). -/
def groupGoalRate (df : Table) (g : String) : Option ℚ :=
  let rs := filterGroup df g
  if rs.isEmpty then none
  else some ((rs.map Row.platform_Goal_Achieved).sum / (rs.length : ℚ))

/-- Lookup of `Comprehension_Avg` for group `g` in `group_metrics` followed
by `.iloc[0]`. -/
def groupComprehensionAvg (df : Table) (g : String) : Option ℚ :=
  let rs := filterGroup df g
  if rs.isEmpty then none
  else some ((rs.map Row.user_Comprehension_Score).sum / (rs.length : ℚ))

/-- One row of the `tradeoff_data` frame handed to the plotting surface. -/
structure TradeoffRow where
  metric : String
  value : ℚ
  type : String
deriving Repr, DecidableEq

/-- Source `generate_visualization(df)` up to its data content: computes the group
metrics, the two deltas, and the two-row trade-off table.  The chart
rendering itself consumes this table and is out of scope.  An `IndexError`
(out-of-range `.iloc[0]`) occurs when group B or group A is absent. -/
def generate_visualization (df : Table) : Except String (List TradeoffRow) :=
  match groupGoalRate df "B", groupGoalRate df "A",
        groupComprehensionAvg df "A", groupComprehensionAvg df "B" with
  | some goalB, some goalA, some comprA, some comprB =>
    let nudge_effect : ℚ := (goalB - goalA) * 100
    let ethical_cost : ℚ := comprA - comprB
    .ok [ { metric := "Platform Goal Increase (%)"
            value := nudge_effect
            type := "Platform Gain (Desired)" },
          { metric := "User Comprehension Drop (Points)"
            value := ethical_cost
            type := "User Cost (Ethical Concern)" } ]
  | _, _, _, _ => .error "IndexError: single positional indexer is out-of-bounds"

/-- Arithmetic mean of a list, written the way the spec speaks of group
means (used on the spec side of the reporter theorems). -/
def specMean (xs : List ℚ) : ℚ := xs.sum / (xs.length : ℚ)

/-! ## Helper lemmas -/

theorem le_clip (lo hi x : ℚ) : lo ≤ clip lo hi x := le_max_left _ _

theorem clip_le (lo hi x : ℚ) (h : lo ≤ hi) : clip lo hi x ≤ hi :=
  max_le h (min_le_right _ _)

theorem clip_eq_self (lo hi x : ℚ) (h1 : lo ≤ x) (h2 : x ≤ hi) :
    clip lo hi x = x := by
  unfold clip
  rw [min_eq_left h2, max_eq_right h1]

theorem roundHalfEven_bounds (a b : ℤ) (x : ℚ) (ha : (a : ℚ) ≤ x)
    (hb : x ≤ (b : ℚ)) : a ≤ roundHalfEven x ∧ roundHalfEven x ≤ b := by
  have hfa : a ≤ ⌊x⌋ := Int.le_floor.mpr ha
  have hfb : ⌊x⌋ ≤ b := by
    have h := Int.floor_mono hb
    simpa using h
  have hkey : ¬(x - (⌊x⌋ : ℚ) < 1/2) → ⌊x⌋ < b := by
    intro hge
    push_neg at hge
    have hx : (⌊x⌋ : ℚ) < x := by linarith
    rcases lt_or_eq_of_le hfb with h | h
    · exact h
    · exfalso
      rw [h] at hx
      linarith
  unfold roundHalfEven
  split_ifs with h1 h2 h3
  · exact ⟨hfa, hfb⟩
  · refine ⟨by omega, ?_⟩
    have := hkey h1
    omega
  · exact ⟨hfa, hfb⟩
  · refine ⟨by omega, ?_⟩
    have := hkey h1
    omega

theorem round1_mem (x : ℚ) (h1 : 1 ≤ x) (h2 : x ≤ 10) :
    1 ≤ round1 x ∧ round1 x ≤ 10 := by
  have h := roundHalfEven_bounds 10 100 (x * 10) (by push_cast; linarith)
    (by push_cast; linarith)
  have hlo : (10 : ℚ) ≤ (roundHalfEven (x * 10) : ℚ) := by exact_mod_cast h.1
  have hhi : ((roundHalfEven (x * 10) : ℚ)) ≤ 100 := by exact_mod_cast h.2
  unfold round1
  constructor <;> linarith

theorem simRow_userID (group goal goalB : ℕ → Bool) (compr : ℕ → ℚ)
    (optout urgency : ℕ → ℤ) (i : ℕ) :
    (simRow group goal goalB compr optout urgency i).userID = 1000 + (i : ℤ) := by
  unfold simRow
  cases group i <;> rfl

theorem simRow_test_Group (group goal goalB : ℕ → Bool) (compr : ℕ → ℚ)
    (optout urgency : ℕ → ℤ) (i : ℕ) :
    (simRow group goal goalB compr optout urgency i).test_Group =
      if group i then "B" else "A" := by
  unfold simRow
  cases group i <;> rfl

theorem simRow_optOut (group goal goalB : ℕ → Bool) (compr : ℕ → ℚ)
    (optout urgency : ℕ → ℤ) (i : ℕ) :
    (simRow group goal goalB compr optout urgency i).optOut_Difficulty_Score =
      (optout i : ℚ) := by
  unfold simRow
  cases group i <;> rfl

theorem simRow_urgency (group goal goalB : ℕ → Bool) (compr : ℕ → ℚ)
    (optout urgency : ℕ → ℤ) (i : ℕ) :
    (simRow group goal goalB compr optout urgency i).urgency_Messaging_Score =
      clip 1 10 (if group i then clip 1 8 (urgency i : ℚ) + 2 else (urgency i : ℚ)) := by
  unfold simRow
  cases group i <;> (simp; try norm_num)

theorem simRow_compr (group goal goalB : ℕ → Bool) (compr : ℕ → ℚ)
    (optout urgency : ℕ → ℤ) (i : ℕ) :
    (simRow group goal goalB compr optout urgency i).user_Comprehension_Score =
      round1 (clip 1 10 (if group i then compr i - 1 else compr i)) := by
  unfold simRow
  cases group i <;> (simp; try norm_num)

theorem mem_addCol_of_mem {cs : List String} {c c' : String} (h : c ∈ cs) :
    c ∈ addCol cs c' := by
  unfold addCol
  split
  · exact h
  · exact List.mem_append_left _ h

theorem mem_addCol_self (cs : List String) (c : String) : c ∈ addCol cs c := by
  unfold addCol
  split
  · assumption
  · exact List.mem_append_right _ (List.mem_singleton_self c)

theorem mem_addCol_elim {cs : List String} {c c' : String} (h : c ∈ addCol cs c') :
    c ∈ cs ∨ c = c' := by
  unfold addCol at h
  split at h
  · exact Or.inl h
  · rcases List.mem_append.mp h with h1 | h1
    · exact Or.inl h1
    · exact Or.inr (List.mem_singleton.mp h1)

theorem addCol_eq_of_mem {cs : List String} {c : String} (h : c ∈ cs) :
    addCol cs c = cs := by
  unfold addCol
  rw [if_pos h]

theorem scoreRow_userID (r : Row) : (scoreRow r).userID = r.userID := rfl

theorem scoreRow_base (r : Row) :
    (scoreRow r).userID = r.userID ∧
    (scoreRow r).test_Group = r.test_Group ∧
    (scoreRow r).platform_Goal_Achieved = r.platform_Goal_Achieved ∧
    (scoreRow r).user_Comprehension_Score = r.user_Comprehension_Score ∧
    (scoreRow r).optOut_Difficulty_Score = r.optOut_Difficulty_Score ∧
    (scoreRow r).urgency_Messaging_Score = r.urgency_Messaging_Score :=
  ⟨rfl, rfl, rfl, rfl, rfl, rfl⟩

theorem scoreRow_nad (r : Row) :
    (scoreRow r).nad_Score =
      r.optOut_Difficulty_Score * 0.4 + r.urgency_Messaging_Score * 0.5 := rfl

theorem scoreRow_nadNorm (r : Row) :
    (scoreRow r).nad_Score_Normalized =
      (r.optOut_Difficulty_Score * 0.4 + r.urgency_Messaging_Score * 0.5) /
        (10 * 0.4 + 10 * 0.5) := rfl

theorem calculate_ok (df : Table) (h1 : "OptOut_Difficulty_Score" ∈ df.cols)
    (h2 : "Urgency_Messaging_Score" ∈ df.cols) :
    calculate_autonomy_deficit df = .ok
      { cols := addCol (addCol df.cols "NAD_Score") "NAD_Score_Normalized"
        rows := df.rows.map scoreRow } := by
  unfold calculate_autonomy_deficit
  rw [if_pos h1, if_pos h2]

theorem calculate_missing_urgency (df : Table)
    (h1 : "OptOut_Difficulty_Score" ∈ df.cols)
    (h2 : "Urgency_Messaging_Score" ∉ df.cols) :
    calculate_autonomy_deficit df = .error "KeyError: Urgency_Messaging_Score" := by
  unfold calculate_autonomy_deficit
  rw [if_pos h1, if_neg h2]

theorem calculate_missing_optout (df : Table)
    (h1 : "OptOut_Difficulty_Score" ∉ df.cols) :
    calculate_autonomy_deficit df = .error "KeyError: OptOut_Difficulty_Score" := by
  unfold calculate_autonomy_deficit
  rw [if_neg h1]

/-- Helper to build a concrete observation row for the worked examples. -/
def mkObsRow (id : ℤ) (g : String) (goalv comprv opt urg : ℚ) : Row :=
  { userID := id
    test_Group := g
    platform_Goal_Achieved := goalv
    user_Comprehension_Score := comprv
    optOut_Difficulty_Score := opt
    urgency_Messaging_Score := urg }

/-- The spec's end-to-end scorer example: a 4-row table whose rows include
(OptOut=2, Urgency=3) and (OptOut=10, Urgency=10). -/
def exampleScorerTable : Table :=
  { cols := obsCols
    rows := [mkObsRow 1000 "A" 0 7 2 3,
             mkObsRow 1001 "B" 1 6 10 10,
             mkObsRow 1002 "A" 1 8 5 5,
             mkObsRow 1003 "B" 0 5 1 1] }

theorem simulate_rows_length (group goal goalB : ℕ → Bool) (compr : ℕ → ℚ)
    (optout urgency : ℕ → ℤ) :
    (simulate_data group goal goalB compr optout urgency).rows.length = n_users := by
  simp [simulate_data]

theorem simulate_rows_getElem (group goal goalB : ℕ → Bool) (compr : ℕ → ℚ)
    (optout urgency : ℕ → ℤ) (j : ℕ) (hj : j < n_users) :
    (simulate_data group goal goalB compr optout urgency).rows[j]? =
      some (simRow group goal goalB compr optout urgency j) := by
  simp [simulate_data, List.getElem?_map, List.getElem?_range, hj]

theorem mem_simulate_rows (group goal goalB : ℕ → Bool) (compr : ℕ → ℚ)
    (optout urgency : ℕ → ℤ) (r : Row)
    (hr : r ∈ (simulate_data group goal goalB compr optout urgency).rows) :
    ∃ i, i < n_users ∧ r = simRow group goal goalB compr optout urgency i := by
  simp only [simulate_data, List.mem_map, List.mem_range] at hr
  obtain ⟨i, hi, hri⟩ := hr
  exact ⟨i, hi, hri.symm⟩

/-! ## Claim theorems: the simulator -/

/-- Claim C4: for every row of the table returned by the Data Simulator,
`User_Comprehension_Score` lies in [1,10] (clamped, then rounded to one
decimal, so it is an integer number of tenths) and `Urgency_Messaging_Score`
lies in [1,10].  This holds for arbitrary random draws because of the final
whole-column cleanup. -/
theorem C4_post_simulation_bounds (group goal goalB : ℕ → Bool) (compr : ℕ → ℚ)
    (optout urgency : ℕ → ℤ) :
    ∀ r ∈ (simulate_data group goal goalB compr optout urgency).rows,
      (1 ≤ r.user_Comprehension_Score ∧ r.user_Comprehension_Score ≤ 10 ∧
        ∃ k : ℤ, r.user_Comprehension_Score = (k : ℚ) / 10) ∧
      (1 ≤ r.urgency_Messaging_Score ∧ r.urgency_Messaging_Score ≤ 10) := by
  intro r hr
  obtain ⟨i, hi, rfl⟩ := mem_simulate_rows _ _ _ _ _ _ r hr
  rw [simRow_compr, simRow_urgency]
  constructor
  · have h1 : (1 : ℚ) ≤ clip 1 10 (if group i then compr i - 1 else compr i) :=
      le_clip _ _ _
    have h2 : clip 1 10 (if group i then compr i - 1 else compr i) ≤ 10 :=
      clip_le _ _ _ (by norm_num)
    have h := round1_mem _ h1 h2
    exact ⟨h.1, h.2, ⟨roundHalfEven (clip 1 10
      (if group i then compr i - 1 else compr i) * 10), rfl⟩⟩
  · exact ⟨le_clip _ _ _, clip_le _ _ _ (by norm_num)⟩

/-- Witness for C4: row 0 of a concrete simulation is a member of the
simulated rows, and the bounds hold for it by the theorem. -/
theorem C4_post_simulation_bounds_witness :
    (simRow (fun _ => true) (fun _ => false) (fun _ => false) (fun _ => 7)
        (fun _ => 5) (fun _ => 5) 0 ∈
      (simulate_data (fun _ => true) (fun _ => false) (fun _ => false)
        (fun _ => 7) (fun _ => 5) (fun _ => 5)).rows) ∧
    ((1 ≤ (simRow (fun _ => true) (fun _ => false) (fun _ => false) (fun _ => 7)
          (fun _ => 5) (fun _ => 5) 0).user_Comprehension_Score ∧
      (simRow (fun _ => true) (fun _ => false) (fun _ => false) (fun _ => 7)
          (fun _ => 5) (fun _ => 5) 0).user_Comprehension_Score ≤ 10 ∧
      ∃ k : ℤ, (simRow (fun _ => true) (fun _ => false) (fun _ => false) (fun _ => 7)
          (fun _ => 5) (fun _ => 5) 0).user_Comprehension_Score = (k : ℚ) / 10) ∧
     (1 ≤ (simRow (fun _ => true) (fun _ => false) (fun _ => false) (fun _ => 7)
          (fun _ => 5) (fun _ => 5) 0).urgency_Messaging_Score ∧
      (simRow (fun _ => true) (fun _ => false) (fun _ => false) (fun _ => 7)
          (fun _ => 5) (fun _ => 5) 0).urgency_Messaging_Score ≤ 10)) :=
  have hm : simRow (fun _ => true) (fun _ => false) (fun _ => false) (fun _ => 7)
      (fun _ => 5) (fun _ => 5) 0 ∈
      (simulate_data (fun _ => true) (fun _ => false) (fun _ => false)
        (fun _ => 7) (fun _ => 5) (fun _ => 5)).rows :=
    List.mem_map_of_mem _ (List.mem_range.mpr (by norm_num [n_users]))
  ⟨hm, C4_post_simulation_bounds (fun _ => true) (fun _ => false) (fun _ => false)
    (fun _ => 7) (fun _ => 5) (fun _ => 5) _ hm⟩

/-- Claim C5: the Data Simulator, given no external input beyond its random
draws, produces exactly 1000 observation records; every row's `Test_Group`
is `"A"` or `"B"`, and the `UserID` values are exactly the contiguous
integers starting at 1000 (hence unique). -/
theorem C5_simulator_shape (group goal goalB : ℕ → Bool) (compr : ℕ → ℚ)
    (optout urgency : ℕ → ℤ) :
    (simulate_data group goal goalB compr optout urgency).rows.length = 1000 ∧
    (∀ r ∈ (simulate_data group goal goalB compr optout urgency).rows,
      r.test_Group = "A" ∨ r.test_Group = "B") ∧
    (simulate_data group goal goalB compr optout urgency).rows.map Row.userID =
      (List.range 1000).map (fun i : ℕ => 1000 + (i : ℤ)) ∧
    ((simulate_data group goal goalB compr optout urgency).rows.map Row.userID).Nodup := by
  have hmap : (simulate_data group goal goalB compr optout urgency).rows.map Row.userID =
      (List.range 1000).map (fun i : ℕ => 1000 + (i : ℤ)) := by
    simp only [simulate_data, List.map_map, n_users]
    apply List.map_congr_left
    intro i _
    simpa using simRow_userID group goal goalB compr optout urgency i
  refine ⟨by simp [simulate_data, n_users], ?_, hmap, ?_⟩
  · intro r hr
    obtain ⟨i, hi, rfl⟩ := mem_simulate_rows _ _ _ _ _ _ r hr
    cases hg : group i
    · left
      simp [simRow_test_Group, hg]
    · right
      simp [simRow_test_Group, hg]
  · rw [hmap]
    refine List.Nodup.map ?_ (List.nodup_range 1000)
    intro a b hab
    simp only at hab
    omega

/-- Claim C3: `Urgency_Messaging_Score` is drawn as an integer in [1,9]
(a property of `np.random.randint(1, 10)`, carried as the hypotheses on
`urgency i`); every group-B row gets the original value clamped to [1,8]
then increased by 2 (so it can reach 10), every non-B row keeps the
unclamped original at that step, and afterwards the whole column — both
groups — is clamped to [1,10].  The first conjunct gives the final value of
every row for arbitrary draws (B-transform inside the whole-column clamp);
the rest evaluates row `i` under the [1,9] draw hypotheses, where the final
clamp is the identity. -/
theorem C3_urgency_clamp_then_bias (group goal goalB : ℕ → Bool) (compr : ℕ → ℚ)
    (optout urgency : ℕ → ℤ) (i : ℕ) (hi : i < n_users)
    (hlo : 1 ≤ urgency i) (hhi : urgency i ≤ 9) :
    (∀ j, j < n_users →
      ((simulate_data group goal goalB compr optout urgency).rows[j]?).map
          Row.urgency_Messaging_Score =
        some (clip 1 10
          (if group j then clip 1 8 (urgency j : ℚ) + 2 else (urgency j : ℚ)))) ∧
    ((simulate_data group goal goalB compr optout urgency).rows[i]?).map
        Row.urgency_Messaging_Score =
      some (if group i then clip 1 8 (urgency i : ℚ) + 2 else (urgency i : ℚ)) ∧
    (group i = true →
      3 ≤ clip 1 8 (urgency i : ℚ) + 2 ∧ clip 1 8 (urgency i : ℚ) + 2 ≤ 10) := by
  have hall : ∀ j, j < n_users →
      ((simulate_data group goal goalB compr optout urgency).rows[j]?).map
          Row.urgency_Messaging_Score =
        some (clip 1 10
          (if group j then clip 1 8 (urgency j : ℚ) + 2 else (urgency j : ℚ))) := by
    intro j hj
    rw [simulate_rows_getElem _ _ _ _ _ _ j hj]
    simp [simRow_urgency]
  have hclip8lo := le_clip 1 8 (urgency i : ℚ)
  have hclip8hi := clip_le 1 8 (urgency i : ℚ) (by norm_num)
  refine ⟨hall, ?_, ?_⟩
  · rw [hall i hi]
    congr 1
    cases hg : group i
    · simp only [Bool.false_eq_true, if_false]
      apply clip_eq_self
      · exact_mod_cast hlo
      · have h9 : (urgency i : ℚ) ≤ 9 := by exact_mod_cast hhi
        linarith
    · simp only [if_true]
      apply clip_eq_self
      · linarith
      · linarith
  · intro _
    constructor <;> linarith

/-- Witness for C3: all-group-B draws with urgency draw 5, checked at
row 0 — the hypotheses 0 < 1000 and 1 ≤ 5 ≤ 9 hold, and the theorem's
conclusion follows by applying it there. -/
theorem C3_urgency_clamp_then_bias_witness :
    (0 < n_users ∧ (1 : ℤ) ≤ 5 ∧ (5 : ℤ) ≤ 9) ∧
    ((∀ j, j < n_users →
      ((simulate_data (fun _ => true) (fun _ => false) (fun _ => false)
          (fun _ => 7) (fun _ => 5) (fun _ => 5)).rows[j]?).map
          Row.urgency_Messaging_Score =
        some (clip 1 10 (clip 1 8 ((5 : ℤ) : ℚ) + 2))) ∧
    ((simulate_data (fun _ => true) (fun _ => false) (fun _ => false)
        (fun _ => 7) (fun _ => 5) (fun _ => 5)).rows[0]?).map
        Row.urgency_Messaging_Score = some (clip 1 8 ((5 : ℤ) : ℚ) + 2) ∧
    (true = true →
      3 ≤ clip 1 8 ((5 : ℤ) : ℚ) + 2 ∧ clip 1 8 ((5 : ℤ) : ℚ) + 2 ≤ 10)) :=
  ⟨⟨by norm_num [n_users], by norm_num, by norm_num⟩,
   C3_urgency_clamp_then_bias (fun _ => true) (fun _ => false) (fun _ => false)
     (fun _ => 7) (fun _ => 5) (fun _ => 5) 0 (by norm_num [n_users])
     (by norm_num) (by norm_num)⟩

/-! ## Claim theorems: the scorer -/

/-- Claim C1: on any table with both feature columns the scorer sets, for
every row, `NAD_Score = 0.4 × OptOut + 0.5 × Urgency` (no upper bound
enforced) and `NAD_Score_Normalized = NAD_Score / 9`; on the spec's 4-row
example containing rows (OptOut=2, Urgency=3) and (OptOut=10, Urgency=10)
this yields NAD scores 2.3 and 9.0 with normalized values 23/90 and 1.0,
and 23/90 printed to four decimals is 0.2556 (last conjunct). -/
theorem C1_nad_formula (t : Table) (h1 : "OptOut_Difficulty_Score" ∈ t.cols)
    (h2 : "Urgency_Messaging_Score" ∈ t.cols) :
    (∃ t', calculate_autonomy_deficit t = .ok t' ∧
      ∀ (i : ℕ) (r : Row), t.rows[i]? = some r →
        ∃ r' : Row, t'.rows[i]? = some r' ∧
          r'.nad_Score = 0.4 * r.optOut_Difficulty_Score +
            0.5 * r.urgency_Messaging_Score ∧
          r'.nad_Score_Normalized = r'.nad_Score / 9) ∧
    (calculate_autonomy_deficit exampleScorerTable).map
        (fun t' => t'.rows.map fun r => (r.nad_Score, r.nad_Score_Normalized)) =
      .ok [((2.3 : ℚ), 23/90), (9, 1), (4.5, 1/2), (0.9, 1/10)] ∧
    roundHalfEven ((23/90 : ℚ) * 10000) = 2556 := by
  refine ⟨⟨_, calculate_ok t h1 h2, ?_⟩, ?_, ?_⟩
  · intro i r hr
    refine ⟨scoreRow r, ?_, ?_, ?_⟩
    · simp [List.getElem?_map, hr]
    · rw [scoreRow_nad]
      ring
    · rw [scoreRow_nadNorm, scoreRow_nad]
      norm_num
  · rw [calculate_ok exampleScorerTable (by decide) (by decide)]
    simp only [Except.map, exampleScorerTable, mkObsRow, List.map_cons, List.map_nil]
    norm_num [scoreRow]
  · norm_num [roundHalfEven]

/-- Witness for C1: the hypotheses hold at the 4-row example table and the
theorem applies there. -/
theorem C1_nad_formula_witness :
    ("OptOut_Difficulty_Score" ∈ exampleScorerTable.cols ∧
     "Urgency_Messaging_Score" ∈ exampleScorerTable.cols) ∧
    ((∃ t', calculate_autonomy_deficit exampleScorerTable = .ok t' ∧
      ∀ (i : ℕ) (r : Row), exampleScorerTable.rows[i]? = some r →
        ∃ r' : Row, t'.rows[i]? = some r' ∧
          r'.nad_Score = 0.4 * r.optOut_Difficulty_Score +
            0.5 * r.urgency_Messaging_Score ∧
          r'.nad_Score_Normalized = r'.nad_Score / 9) ∧
    (calculate_autonomy_deficit exampleScorerTable).map
        (fun t' => t'.rows.map fun r => (r.nad_Score, r.nad_Score_Normalized)) =
      .ok [((2.3 : ℚ), 23/90), (9, 1), (4.5, 1/2), (0.9, 1/10)] ∧
    roundHalfEven ((23/90 : ℚ) * 10000) = 2556) :=
  ⟨⟨by decide, by decide⟩, C1_nad_formula exampleScorerTable (by decide) (by decide)⟩

/-- Claim C7: given a table with both feature columns, the scorer returns
the same table with only `NAD_Score` and `NAD_Score_Normalized` appended —
same number of rows, every other column's name still present and no new
name besides the two, and every row's six observation fields unchanged. -/
theorem C7_scorer_frame (t : Table) (h1 : "OptOut_Difficulty_Score" ∈ t.cols)
    (h2 : "Urgency_Messaging_Score" ∈ t.cols) :
    ∃ t', calculate_autonomy_deficit t = .ok t' ∧
      t'.rows.length = t.rows.length ∧
      (∀ (i : ℕ) (r r' : Row), t.rows[i]? = some r → t'.rows[i]? = some r' →
        r'.userID = r.userID ∧ r'.test_Group = r.test_Group ∧
        r'.platform_Goal_Achieved = r.platform_Goal_Achieved ∧
        r'.user_Comprehension_Score = r.user_Comprehension_Score ∧
        r'.optOut_Difficulty_Score = r.optOut_Difficulty_Score ∧
        r'.urgency_Messaging_Score = r.urgency_Messaging_Score) ∧
      (∀ c ∈ t.cols, c ∈ t'.cols) ∧
      (∀ c ∈ t'.cols, c ∈ t.cols ∨ c = "NAD_Score" ∨ c = "NAD_Score_Normalized") ∧
      "NAD_Score" ∈ t'.cols ∧ "NAD_Score_Normalized" ∈ t'.cols := by
  refine ⟨_, calculate_ok t h1 h2, by simp, ?_, ?_, ?_, ?_, ?_⟩
  · intro i r r' hr hr'
    simp only [List.getElem?_map, hr, Option.map_some', Option.some.injEq] at hr'
    subst hr'
    exact scoreRow_base r
  · intro c hc
    exact mem_addCol_of_mem (mem_addCol_of_mem hc)
  · intro c hc
    rcases mem_addCol_elim hc with hc1 | hc1
    · rcases mem_addCol_elim hc1 with hc2 | hc2
      · exact Or.inl hc2
      · exact Or.inr (Or.inl hc2)
    · exact Or.inr (Or.inr hc1)
  · exact mem_addCol_of_mem (mem_addCol_self _ _)
  · exact mem_addCol_self _ _

/-- Witness for C7: the frame property applied at the 4-row example table. -/
theorem C7_scorer_frame_witness :
    ("OptOut_Difficulty_Score" ∈ exampleScorerTable.cols ∧
     "Urgency_Messaging_Score" ∈ exampleScorerTable.cols) ∧
    (∃ t', calculate_autonomy_deficit exampleScorerTable = .ok t' ∧
      t'.rows.length = exampleScorerTable.rows.length ∧
      (∀ (i : ℕ) (r r' : Row), exampleScorerTable.rows[i]? = some r →
        t'.rows[i]? = some r' →
        r'.userID = r.userID ∧ r'.test_Group = r.test_Group ∧
        r'.platform_Goal_Achieved = r.platform_Goal_Achieved ∧
        r'.user_Comprehension_Score = r.user_Comprehension_Score ∧
        r'.optOut_Difficulty_Score = r.optOut_Difficulty_Score ∧
        r'.urgency_Messaging_Score = r.urgency_Messaging_Score) ∧
      (∀ c ∈ exampleScorerTable.cols, c ∈ t'.cols) ∧
      (∀ c ∈ t'.cols,
        c ∈ exampleScorerTable.cols ∨ c = "NAD_Score" ∨ c = "NAD_Score_Normalized") ∧
      "NAD_Score" ∈ t'.cols ∧ "NAD_Score_Normalized" ∈ t'.cols) :=
  ⟨⟨by decide, by decide⟩, C7_scorer_frame exampleScorerTable (by decide) (by decide)⟩

/-- Claim C8: the scorer is idempotent — running it again on its own output
recomputes and overwrites the two derived columns with identical values, so
scoring twice equals scoring once (and errors pass through unchanged). -/
theorem C8_scorer_idempotent (t : Table) :
    (calculate_autonomy_deficit t).bind calculate_autonomy_deficit =
      calculate_autonomy_deficit t := by
  by_cases h1 : "OptOut_Difficulty_Score" ∈ t.cols
  · by_cases h2 : "Urgency_Messaging_Score" ∈ t.cols
    · rw [calculate_ok t h1 h2]
      have h1' : "OptOut_Difficulty_Score" ∈
          addCol (addCol t.cols "NAD_Score") "NAD_Score_Normalized" :=
        mem_addCol_of_mem (mem_addCol_of_mem h1)
      have h2' : "Urgency_Messaging_Score" ∈
          addCol (addCol t.cols "NAD_Score") "NAD_Score_Normalized" :=
        mem_addCol_of_mem (mem_addCol_of_mem h2)
      show calculate_autonomy_deficit _ = _
      rw [calculate_ok _ h1' h2']
      have ha : addCol (addCol (addCol t.cols "NAD_Score") "NAD_Score_Normalized")
          "NAD_Score" = addCol (addCol t.cols "NAD_Score") "NAD_Score_Normalized" :=
        addCol_eq_of_mem (mem_addCol_of_mem (mem_addCol_self t.cols "NAD_Score"))
      have e1 : addCol (addCol (addCol (addCol t.cols "NAD_Score")
          "NAD_Score_Normalized") "NAD_Score") "NAD_Score_Normalized" =
          addCol (addCol t.cols "NAD_Score") "NAD_Score_Normalized" := by
        rw [ha]
        exact addCol_eq_of_mem
          (mem_addCol_self (addCol t.cols "NAD_Score") "NAD_Score_Normalized")
      have e2 : (t.rows.map scoreRow).map scoreRow = t.rows.map scoreRow := by
        rw [List.map_map]
        exact List.map_congr_left fun r _ => rfl
      rw [e1, e2]
    · rw [calculate_missing_urgency t h1 h2]
      rfl
  · rw [calculate_missing_optout t h1]
    rfl

/-- Claim C9: the scorer fails with a missing-field (`KeyError`) error if
and only if at least one of the two required feature columns is absent;
with both present it succeeds. -/
theorem C9_missing_column_iff (t : Table) :
    (∃ e, calculate_autonomy_deficit t = .error e) ↔
      ("OptOut_Difficulty_Score" ∉ t.cols ∨ "Urgency_Messaging_Score" ∉ t.cols) := by
  by_cases h1 : "OptOut_Difficulty_Score" ∈ t.cols
  · by_cases h2 : "Urgency_Messaging_Score" ∈ t.cols
    · rw [calculate_ok t h1 h2]
      simp [h1, h2]
    · rw [calculate_missing_urgency t h1 h2]
      simp [h2]
  · rw [calculate_missing_optout t h1]
    simp [h1]

/-! ## Claim theorems: the reporter -/

/-- The spec's end-to-end reporter example: 4 group-A rows of which one
achieved the platform goal (`Goal_Rate` 0.25) and 20 group-B rows of which
seven achieved it (`Goal_Rate` 0.35); comprehension is 7 everywhere. -/
def exampleReporterTable : Table :=
  { cols := obsCols
    rows := [mkObsRow 0 "A" 1 7 5 5, mkObsRow 1 "A" 0 7 5 5,
             mkObsRow 2 "A" 0 7 5 5, mkObsRow 3 "A" 0 7 5 5,
             mkObsRow 4 "B" 1 7 5 5, mkObsRow 5 "B" 1 7 5 5,
             mkObsRow 6 "B" 1 7 5 5, mkObsRow 7 "B" 1 7 5 5,
             mkObsRow 8 "B" 1 7 5 5, mkObsRow 9 "B" 1 7 5 5,
             mkObsRow 10 "B" 1 7 5 5, mkObsRow 11 "B" 0 7 5 5,
             mkObsRow 12 "B" 0 7 5 5, mkObsRow 13 "B" 0 7 5 5,
             mkObsRow 14 "B" 0 7 5 5, mkObsRow 15 "B" 0 7 5 5,
             mkObsRow 16 "B" 0 7 5 5, mkObsRow 17 "B" 0 7 5 5,
             mkObsRow 18 "B" 0 7 5 5, mkObsRow 19 "B" 0 7 5 5,
             mkObsRow 20 "B" 0 7 5 5, mkObsRow 21 "B" 0 7 5 5,
             mkObsRow 22 "B" 0 7 5 5, mkObsRow 23 "B" 0 7 5 5] }

/-- Claim C2: on any scored table containing rows of both groups, the
reporter computes `nudge_effect = (mean Goal of B − mean Goal of A) × 100`
and `ethical_cost = mean Comprehension of A − mean Comprehension of B`,
labelled for the chart; on the example table with `Goal_Rate` 0.25 for A
and 0.35 for B the nudge effect is the raw number 10, not a fraction. -/
theorem C2_reporter_deltas (t : Table) (hA : filterGroup t "A" ≠ [])
    (hB : filterGroup t "B" ≠ []) :
    generate_visualization t = .ok
      [ { metric := "Platform Goal Increase (%)"
          value := (specMean ((filterGroup t "B").map Row.platform_Goal_Achieved) -
                    specMean ((filterGroup t "A").map Row.platform_Goal_Achieved)) * 100
          type := "Platform Gain (Desired)" },
        { metric := "User Comprehension Drop (Points)"
          value := specMean ((filterGroup t "A").map Row.user_Comprehension_Score) -
                   specMean ((filterGroup t "B").map Row.user_Comprehension_Score)
          type := "User Cost (Ethical Concern)" } ] ∧
    generate_visualization exampleReporterTable = .ok
      [ { metric := "Platform Goal Increase (%)"
          value := 10
          type := "Platform Gain (Desired)" },
        { metric := "User Comprehension Drop (Points)"
          value := 0
          type := "User Cost (Ethical Concern)" } ] := by
  constructor
  · have hA' : (filterGroup t "A").isEmpty = false := by
      simp [List.isEmpty_iff, hA]
    have hB' : (filterGroup t "B").isEmpty = false := by
      simp [List.isEmpty_iff, hB]
    simp only [generate_visualization, groupGoalRate, groupComprehensionAvg,
      hA', hB', Bool.false_eq_true, if_false, specMean, List.length_map]
  · have hAB : ("A" : String) ≠ "B" := by decide
    have hBA : ("B" : String) ≠ "A" := by decide
    simp only [generate_visualization, groupGoalRate, groupComprehensionAvg,
      filterGroup, exampleReporterTable, mkObsRow, List.filter_cons,
      List.filter_nil, hAB, hBA]
    norm_num

/-- Witness for C2: both groups are nonempty in the example table, and the
theorem applies there. -/
theorem C2_reporter_deltas_witness :
    (filterGroup exampleReporterTable "A" ≠ [] ∧
     filterGroup exampleReporterTable "B" ≠ []) ∧
    (generate_visualization exampleReporterTable = .ok
      [ { metric := "Platform Goal Increase (%)"
          value := (specMean ((filterGroup exampleReporterTable "B").map
                      Row.platform_Goal_Achieved) -
                    specMean ((filterGroup exampleReporterTable "A").map
                      Row.platform_Goal_Achieved)) * 100
          type := "Platform Gain (Desired)" },
        { metric := "User Comprehension Drop (Points)"
          value := specMean ((filterGroup exampleReporterTable "A").map
                     Row.user_Comprehension_Score) -
                   specMean ((filterGroup exampleReporterTable "B").map
                     Row.user_Comprehension_Score)
          type := "User Cost (Ethical Concern)" } ] ∧
    generate_visualization exampleReporterTable = .ok
      [ { metric := "Platform Goal Increase (%)"
          value := 10
          type := "Platform Gain (Desired)" },
        { metric := "User Comprehension Drop (Points)"
          value := 0
          type := "User Cost (Ethical Concern)" } ]) :=
  ⟨⟨by decide, by decide⟩,
   C2_reporter_deltas exampleReporterTable (by decide) (by decide)⟩

/-- Claim C10: the reporter fails with a lookup (out-of-range `.iloc[0]`)
error exactly when group A or group B has no rows in its input; nothing
else in it guards against a missing group. -/
theorem C10_reporter_missing_group_iff (t : Table) :
    (∃ e, generate_visualization t = .error e) ↔
      (filterGroup t "A" = [] ∨ filterGroup t "B" = []) := by
  by_cases hA : filterGroup t "A" = [] <;> by_cases hB : filterGroup t "B" = []
  · simp [generate_visualization, groupGoalRate, groupComprehensionAvg, hA, hB]
  · simp [generate_visualization, groupGoalRate, groupComprehensionAvg, hA,
      List.isEmpty_iff, hB]
  · simp [generate_visualization, groupGoalRate, groupComprehensionAvg, hB,
      List.isEmpty_iff, hA]
  · simp [generate_visualization, groupGoalRate, groupComprehensionAvg,
      List.isEmpty_iff, hA, hB]

/-! ## Claim theorems: the simulator-to-scorer pipeline -/

/-- Claim C6: running the simulator and then the scorer, every row's
`NAD_Score` is at most 8.6 — `OptOut_Difficulty_Score` is an integer draw
in [1,9] (the `randint(1, 10)` hypothesis) and the post-clamp
`Urgency_Messaging_Score` is at most 10 — so `NAD_Score_Normalized` stays
strictly below 1.0; a normalized score reaching 1.0 can only come from a
table this simulator did not produce. -/
theorem C6_pipeline_nad_bound (group goal goalB : ℕ → Bool) (compr : ℕ → ℚ)
    (optout urgency : ℕ → ℤ) (hopt : ∀ i, 1 ≤ optout i ∧ optout i ≤ 9) :
    ∃ t', calculate_autonomy_deficit
        (simulate_data group goal goalB compr optout urgency) = .ok t' ∧
      ∀ r ∈ t'.rows, r.nad_Score ≤ 8.6 ∧ r.nad_Score_Normalized < 1 := by
  have h1 : "OptOut_Difficulty_Score" ∈
      (simulate_data group goal goalB compr optout urgency).cols := by
    show "OptOut_Difficulty_Score" ∈ obsCols
    decide
  have h2 : "Urgency_Messaging_Score" ∈
      (simulate_data group goal goalB compr optout urgency).cols := by
    show "Urgency_Messaging_Score" ∈ obsCols
    decide
  refine ⟨_, calculate_ok _ h1 h2, ?_⟩
  intro r hr
  obtain ⟨r0, hr0, rfl⟩ := List.mem_map.mp hr
  obtain ⟨i, hi, rfl⟩ := mem_simulate_rows _ _ _ _ _ _ r0 hr0
  have ho : ((optout i : ℚ)) ≤ 9 := by exact_mod_cast (hopt i).2
  have hu : clip 1 10
      (if group i then clip 1 8 (urgency i : ℚ) + 2 else (urgency i : ℚ)) ≤ 10 :=
    clip_le _ _ _ (by norm_num)
  constructor
  · rw [scoreRow_nad, simRow_optOut, simRow_urgency]
    linarith
  · rw [scoreRow_nadNorm, simRow_optOut, simRow_urgency,
      div_lt_one (by norm_num : (0 : ℚ) < 10 * 0.4 + 10 * 0.5)]
    linarith

/-- Witness for C6: constant draws with opt-out score 5 satisfy the [1,9]
hypothesis, and the theorem applies there. -/
theorem C6_pipeline_nad_bound_witness :
    (∀ _ : ℕ, (1 : ℤ) ≤ 5 ∧ (5 : ℤ) ≤ 9) ∧
    (∃ t', calculate_autonomy_deficit
        (simulate_data (fun _ => true) (fun _ => false) (fun _ => false)
          (fun _ => 7) (fun _ => 5) (fun _ => 5)) = .ok t' ∧
      ∀ r ∈ t'.rows, r.nad_Score ≤ 8.6 ∧ r.nad_Score_Normalized < 1) :=
  ⟨fun _ => ⟨by norm_num, by norm_num⟩,
   C6_pipeline_nad_bound (fun _ => true) (fun _ => false) (fun _ => false)
     (fun _ => 7) (fun _ => 5) (fun _ => 5)
     (fun _ => ⟨by norm_num, by norm_num⟩)⟩

end AuditFramework
